import Mathlib

set_option maxRecDepth 4000
set_option linter.unusedVariables false

/-!
Verification development for the kamski-vulkan renderer core
(src/src/krender.cpp, src/src/renderer.cpp, src/include/krender.h,
src/include/renderer.h, src/include/common.h).

The C++ code is shallowly embedded: driver calls (vkWaitForFences,
vkAcquireNextImageKHR, vkAllocateDescriptorSets, vkQueueSubmit,
vkQueuePresentKHR) are modelled by result oracles passed as arguments,
GPU handles by natural-number identifiers, and the concurrency
primitives (mutex, condition variable) by the atomic-step semantics the
locks enforce.  Each definition is a direct transliteration of the
named source function.
-/

/-- Model of VkResult restricted to the constructors the embedded code
inspects, plus representative fatal driver errors.  VK_SUCCESS is 0 in
the source; the truthiness test in endFrame is modelled by comparison
with VK_SUCCESS. -/
inductive VkResult
  | VK_SUCCESS
  | VK_SUBOPTIMAL_KHR
  | VK_ERROR_OUT_OF_DATE_KHR
  | VK_ERROR_OUT_OF_POOL_MEMORY
  | VK_ERROR_FRAGMENTED_POOL
  | VK_ERROR_OUT_OF_DEVICE_MEMORY
  | VK_ERROR_DEVICE_LOST
  | VK_TIMEOUT
deriving DecidableEq

/-- Model of the ReturnCode enum from src/include/common.h lines 57-67. -/
inductive ReturnCode
  | OK
  | WRONG_PARAMETERS
  | LAYER_NOT_FOUND
  | DEVICE_NOT_FOUND
  | QFAM_NOT_FOUND
  | SHADER_CREATION_ERROR
  | FILE_NOT_FOUND
  | UNKNOWN
deriving DecidableEq

/-- Model of kvk::Queue (src/include/krender.h lines 538-552) restricted
to the fields mutated by the lease operations: the occupancy bitset and
the running free-slot count.  Handles, pools, buffers and fences are
parallel arrays indexed by the same slot index and are not needed to
settle the leasing claims. -/
structure Queue where
  isSlotOccupied : List Bool
  freePoolCount : Nat
deriving DecidableEq

/-- Queue as created by createQueue (krender.cpp lines 2843-2906):
coreCount slots, all free, freePoolCount = coreCount where coreCount is
the hardware concurrency. -/
def initQueue (coreCount : Nat) : Queue :=
  { isSlotOccupied := List.replicate coreCount false, freePoolCount := coreCount }

/-- First index holding false in the occupancy bitset; this is the scan
loop of lockCommandPool (krender.cpp lines 2938-2946). -/
def findFirstFreeSlot : List Bool → Option Nat
  | [] => none
  | b :: rest => if b then (findFirstFreeSlot rest).map (· + 1) else some 0

/-- Possible outcomes of one lockCommandPool call on a queue. -/
inductive LockOutcome
  | blocked
  | assertFailed
  | acquired (q : Queue) (slotIndex : Nat)
deriving DecidableEq

/-- Body of lockCommandPool (krender.cpp lines 2908-2948) after the
queue has been selected, executed under queue.poolMutex: if
freePoolCount is 0 the call waits on poolCvar (modelled as blocked,
the step can only complete once freePoolCount is nonzero); otherwise
the first free slot is marked occupied, freePoolCount is decremented
and the slot index is returned.  The final assert(false) of the scan
loop is assertFailed. -/
def lockCommandPoolQ (q : Queue) : LockOutcome :=
  if q.freePoolCount = 0 then
    LockOutcome.blocked
  else
    match findFirstFreeSlot q.isSlotOccupied with
    | some slotIndex =>
        LockOutcome.acquired
          { isSlotOccupied := q.isSlotOccupied.set slotIndex true,
            freePoolCount := q.freePoolCount - 1 }
          slotIndex
    | none => LockOutcome.assertFailed

/-- unlockCommandPool (krender.cpp lines 2950-2959) under
queue.poolMutex: asserts the index is in range, the slot occupied and
freePoolCount below the hardware concurrency, then frees the slot,
increments freePoolCount and notifies one waiter.  none models an
assertion failure. -/
def unlockCommandPoolQ (q : Queue) (poolIndex : Nat) (hwConcurrency : Nat) : Option Queue :=
  if poolIndex < q.isSlotOccupied.length
      ∧ q.isSlotOccupied.getD poolIndex false = true
      ∧ q.freePoolCount ≠ hwConcurrency then
    some { isSlotOccupied := q.isSlotOccupied.set poolIndex false,
           freePoolCount := q.freePoolCount + 1 }
  else
    none

/-- Interleaved lease histories on one queue.  The ghost list carries
the slot indices of the outstanding leases (PoolInfo values handed out
by lockCommandPool and not yet returned).  Because both operations run
under queue.poolMutex, any concurrent history is a sequence of these
atomic steps. -/
inductive QueueReach (coreCount : Nat) : Queue → List Nat → Prop
  | start : QueueReach coreCount (initQueue coreCount) []
  | lock {q leases q' i} :
      QueueReach coreCount q leases →
      lockCommandPoolQ q = LockOutcome.acquired q' i →
      QueueReach coreCount q' (i :: leases)
  | unlock {q leases q' i} :
      QueueReach coreCount q leases →
      i ∈ leases →
      unlockCommandPoolQ q i coreCount = some q' →
      QueueReach coreCount q' (leases.erase i)

theorem getD_set_self {α : Type} (l : List α) (i : Nat) (b d : α)
    (h : i < l.length) : (l.set i b).getD i d = b := by
  induction l generalizing i with
  | nil => simp at h
  | cons x xs ih =>
      cases i with
      | zero => simp [List.set, List.getD]
      | succ j =>
          simp only [List.set, List.getD_cons_succ]
          exact ih j (by simpa using h)

theorem getD_set_other {α : Type} (l : List α) (i j : Nat) (b d : α)
    (h : j ≠ i) : (l.set i b).getD j d = l.getD j d := by
  induction l generalizing i j with
  | nil => simp [List.set]
  | cons x xs ih =>
      cases i with
      | zero =>
          cases j with
          | zero => exact absurd rfl h
          | succ k => simp [List.set, List.getD_cons_succ]
      | succ i2 =>
          cases j with
          | zero => simp [List.set, List.getD_cons_zero]
          | succ k =>
              simp only [List.set, List.getD_cons_succ]
              exact ih i2 k (fun hk => h (by rw [hk]))

theorem getD_replicate_false (n i : Nat) :
    (List.replicate n false).getD i false = false := by
  induction n generalizing i with
  | zero => simp [List.getD]
  | succ m ih =>
      cases i with
      | zero => simp [List.replicate]
      | succ k =>
          rw [List.replicate_succ, List.getD_cons_succ]
          exact ih k

theorem findFirstFreeSlot_spec (l : List Bool) (i : Nat)
    (h : findFirstFreeSlot l = some i) :
    i < l.length ∧ l.getD i false = false := by
  induction l generalizing i with
  | nil => simp [findFirstFreeSlot] at h
  | cons b rest ih =>
      by_cases hb : b
      · simp only [findFirstFreeSlot, if_pos hb] at h
        cases hr : findFirstFreeSlot rest with
        | none => rw [hr] at h; cases h
        | some j =>
            rw [hr] at h
            obtain ⟨hlt, hget⟩ := ih j hr
            injection h with h2
            subst h2
            exact ⟨by simpa using Nat.succ_lt_succ hlt,
              by simpa [List.getD_cons_succ] using hget⟩
      · simp only [findFirstFreeSlot, if_neg hb] at h
        cases h
        simp [List.getD_cons_zero, hb]

theorem lockCommandPoolQ_acquired {q q' : Queue} {i : Nat}
    (h : lockCommandPoolQ q = LockOutcome.acquired q' i) :
    q.freePoolCount ≠ 0
    ∧ findFirstFreeSlot q.isSlotOccupied = some i
    ∧ q' = { isSlotOccupied := q.isSlotOccupied.set i true,
             freePoolCount := q.freePoolCount - 1 } := by
  unfold lockCommandPoolQ at h
  by_cases h0 : q.freePoolCount = 0
  · simp [h0] at h
  · rw [if_neg h0] at h
    cases hfind : findFirstFreeSlot q.isSlotOccupied with
    | none => rw [hfind] at h; cases h
    | some j =>
        rw [hfind] at h
        simp only [LockOutcome.acquired.injEq] at h
        obtain ⟨hq, hi⟩ := h
        subst hi
        exact ⟨h0, rfl, hq.symm⟩

theorem unlockCommandPoolQ_some {q q' : Queue} {i n : Nat}
    (h : unlockCommandPoolQ q i n = some q') :
    i < q.isSlotOccupied.length
    ∧ q.isSlotOccupied.getD i false = true
    ∧ q.freePoolCount ≠ n
    ∧ q' = { isSlotOccupied := q.isSlotOccupied.set i false,
             freePoolCount := q.freePoolCount + 1 } := by
  unfold unlockCommandPoolQ at h
  by_cases hc : i < q.isSlotOccupied.length
      ∧ q.isSlotOccupied.getD i false = true ∧ q.freePoolCount ≠ n
  · rw [if_pos hc] at h
    cases h
    exact ⟨hc.1, hc.2.1, hc.2.2, rfl⟩
  · rw [if_neg hc] at h
    cases h

/-- Invariant tying the ghost lease list to the queue state. -/
def QueueLeaseInv (coreCount : Nat) (q : Queue) (leases : List Nat) : Prop :=
  q.isSlotOccupied.length = coreCount
  ∧ leases.Nodup
  ∧ leases.length + q.freePoolCount = coreCount
  ∧ (∀ i, i ∈ leases → i < coreCount)
  ∧ ∀ i, i < coreCount → ((q.isSlotOccupied.getD i false = true) ↔ i ∈ leases)

theorem queueReach_inv {coreCount : Nat} {q : Queue} {leases : List Nat}
    (h : QueueReach coreCount q leases) : QueueLeaseInv coreCount q leases := by
  induction h with
  | start =>
      refine ⟨by simp [initQueue], List.nodup_nil, by simp [initQueue], ?_, ?_⟩
      · intro i hi; simp at hi
      · intro i _
        simp [initQueue, getD_replicate_false]
  | lock hreach hlock ih =>
      obtain ⟨hlen, hnodup, hcount, hbound, hiff⟩ := ih
      obtain ⟨hfpc, hfind, hq'⟩ := lockCommandPoolQ_acquired hlock
      obtain ⟨hilt, hifree⟩ := findFirstFreeSlot_spec _ _ hfind
      rename_i q0 leases0 q1 i0
      have hin : i0 < coreCount := hlen ▸ hilt
      have hnot : i0 ∉ leases0 := by
        intro hmem
        have := (hiff i0 hin).2 hmem
        rw [hifree] at this
        cases this
      subst hq'
      refine ⟨by simpa using hlen, List.nodup_cons.2 ⟨hnot, hnodup⟩, ?_, ?_, ?_⟩
      · simp only [List.length_cons]
        omega
      · intro j hj
        rcases List.mem_cons.1 hj with hji | hjm
        · exact hji ▸ hin
        · exact hbound j hjm
      · intro j hj
        by_cases hji : j = i0
        · subst hji
          constructor
          · intro _; exact List.mem_cons_self _ _
          · intro _
            exact getD_set_self _ _ _ _ hilt
        · rw [getD_set_other _ _ _ _ _ hji]
          rw [hiff j hj]
          constructor
          · intro hm; exact List.mem_cons_of_mem _ hm
          · intro hm
            rcases List.mem_cons.1 hm with h1 | h2
            · exact absurd h1 hji
            · exact h2
  | unlock hreach hmem hunlock ih =>
      obtain ⟨hlen, hnodup, hcount, hbound, hiff⟩ := ih
      obtain ⟨hilt, hiocc, hfpc, hq'⟩ := unlockCommandPoolQ_some hunlock
      rename_i q0 leases0 q1 i0
      subst hq'
      have hlpos : 0 < leases0.length := List.length_pos_of_mem hmem
      refine ⟨by simpa using hlen, hnodup.erase i0, ?_, ?_, ?_⟩
      · show (leases0.erase i0).length + (q0.freePoolCount + 1) = coreCount
        rw [List.length_erase_of_mem hmem]
        omega
      · intro j hj
        exact hbound j (List.mem_of_mem_erase hj)
      · intro j hj
        by_cases hji : j = i0
        · subst hji
          rw [getD_set_self _ _ _ _ hilt]
          constructor
          · intro hfalse; cases hfalse
          · intro hm
            exact absurd rfl ((List.Nodup.mem_erase_iff hnodup).1 hm).1
        · rw [getD_set_other _ _ _ _ _ hji]
          rw [hiff j hj]
          constructor
          · intro hm
            exact (List.Nodup.mem_erase_iff hnodup).2 ⟨hji, hm⟩
          · intro hm
            exact ((List.Nodup.mem_erase_iff hnodup).1 hm).2

/-- Conclusion of the lease-safety claim, instantiated by the main
theorem and its witness. -/
def LeaseSafety (coreCount : Nat) (q : Queue) (leases : List Nat) : Prop :=
  leases.Nodup
  ∧ leases.length ≤ q.isSlotOccupied.length
  ∧ (lockCommandPoolQ q = LockOutcome.blocked ↔ q.freePoolCount = 0)
  ∧ ∀ i q', unlockCommandPoolQ q i coreCount = some q' →
      q'.freePoolCount = q.freePoolCount + 1 ∧ lockCommandPoolQ q' ≠ LockOutcome.blocked

/-- C1: across every sequence of lockCommandPool and unlockCommandPool
calls on one queue, no two outstanding leases carry the same slot
index, the number of outstanding leases never exceeds
isSlotOccupied.size(), a lockCommandPool call blocks exactly when
freePoolCount is 0, and any unlockCommandPool increments freePoolCount
so a blocked lock can complete afterwards. -/
theorem lockCommandPool_lease_safety {coreCount : Nat} {q : Queue} {leases : List Nat}
    (h : QueueReach coreCount q leases) : LeaseSafety coreCount q leases := by
  obtain ⟨hlen, hnodup, hcount, _hbound, _hiff⟩ := queueReach_inv h
  refine ⟨hnodup, ?_, ?_, ?_⟩
  · rw [hlen]; omega
  · constructor
    · intro hb
      by_contra h0
      unfold lockCommandPoolQ at hb
      rw [if_neg h0] at hb
      cases hfind : findFirstFreeSlot q.isSlotOccupied with
      | none => rw [hfind] at hb; cases hb
      | some j => rw [hfind] at hb; cases hb
    · intro h0
      unfold lockCommandPoolQ
      rw [if_pos h0]
  · intro i q' hu
    obtain ⟨_, _, _, hq'⟩ := unlockCommandPoolQ_some hu
    subst hq'
    refine ⟨rfl, ?_⟩
    intro hb
    unfold lockCommandPoolQ at hb
    rw [if_neg (by simp)] at hb
    cases hfind : findFirstFreeSlot (q.isSlotOccupied.set i false) with
    | none => rw [hfind] at hb; cases hb
    | some j => rw [hfind] at hb; cases hb

/-- Witness for C1 at the concrete reachable state obtained by one
lock on a two-slot queue. -/
theorem lockCommandPool_lease_safety_witness :
    LeaseSafety 2 { isSlotOccupied := [true, false], freePoolCount := 1 } [0] :=
  lockCommandPool_lease_safety
    (QueueReach.lock QueueReach.start (by decide))

/-- Abstract steps of one get-or-create operation on an object cache.
Each cache function in the source is transliterated into the ordered
list of these steps it performs on its miss path:  lockStep/unlockStep
are operations on that cache own mutex, lookupStep is a map find or an
operator[] probe of the key, constructStep is the driver-object
construction work (file read + vkCreateShaderModule + reflection,
vkCreateDescriptorSetLayout, vkCreatePipelineLayout, or the descriptor
set layout lookup + descriptor allocation of buildInternal),
insertStep stores the value for the key, discardStep destroys a
freshly built duplicate. -/
inductive CacheStep
  | lockStep
  | unlockStep
  | lookupStep
  | constructStep
  | insertStep
  | discardStep
deriving DecidableEq

/-- Miss path of shaderModuleFromCache (krender.cpp lines 1089-1133):
take the unique_lock, probe the map, unlock, read the file and build
the module and its reflection, re-lock, probe again; if still absent
insert and return (the lock is released when the function returns),
if another thread won the race return the cached winner, release the
lock, and destroy the locally built module. -/
def shaderModuleMissPath (raceLost : Bool) : List CacheStep :=
  [CacheStep.lockStep, CacheStep.lookupStep, CacheStep.unlockStep,
   CacheStep.constructStep, CacheStep.lockStep, CacheStep.lookupStep] ++
  (if raceLost then [CacheStep.unlockStep, CacheStep.discardStep]
   else [CacheStep.insertStep, CacheStep.unlockStep])

/-- Miss path of descriptorSetLayoutFromCache (krender.cpp lines
2528-2594): a lock_guard on descriptorLayoutMutex is held for the whole
body; operator[] probes the key and default-inserts the entry, and if
the stored handle is null the layout is built (DescriptorSetLayoutBuilder
plus vkCreateDescriptorSetLayout) while the lock is still held. -/
def descriptorSetLayoutMissPath : List CacheStep :=
  [CacheStep.lockStep, CacheStep.lookupStep, CacheStep.insertStep,
   CacheStep.constructStep, CacheStep.unlockStep]

/-- Miss path of the pipeline-layout cache inside PipelineBuilder.build
(krender.cpp lines 1260-1293): a lock_guard on pipelineLayoutMutex is
taken, operator[] probes and default-inserts the PipelineLayoutInfo
key, and vkCreatePipelineLayout runs while the lock is held. -/
def pipelineLayoutMissPath : List CacheStep :=
  [CacheStep.lockStep, CacheStep.lookupStep, CacheStep.insertStep,
   CacheStep.constructStep, CacheStep.unlockStep]

/-- Miss path of DescriptorSetBuilder.build for the named
descriptor-set cache (krender.cpp lines 2682-2688): a lock_guard on
descriptorMutex is taken, operator[] probes and default-inserts the
name, and buildInternal performs the construction (layout retrieval
plus descriptor-set allocation and writes) while the lock is held. -/
def namedDescriptorSetMissPath : List CacheStep :=
  [CacheStep.lockStep, CacheStep.lookupStep, CacheStep.insertStep,
   CacheStep.constructStep, CacheStep.unlockStep]

/-- Walks a step list keeping the current lock depth and checks the
depth seen at every constructStep: needHeld selects whether the
construction must run with the lock held or with the lock free. -/
def constructDepthsOk (needHeld : Bool) : Nat → List CacheStep → Bool
  | _, [] => true
  | d, CacheStep.lockStep :: rest => constructDepthsOk needHeld (d + 1) rest
  | d, CacheStep.unlockStep :: rest => constructDepthsOk needHeld (d - 1) rest
  | d, CacheStep.constructStep :: rest =>
      (if needHeld then decide (0 < d) else decide (d = 0)) &&
        constructDepthsOk needHeld d rest
  | d, _ :: rest => constructDepthsOk needHeld d rest

/-- Holds when every construction step of the path runs with the cache
lock released. -/
def constructsOutsideLock (path : List CacheStep) : Bool :=
  constructDepthsOk false 0 path

/-- Holds when every construction step of the path runs with the cache
lock held. -/
def constructsUnderLock (path : List CacheStep) : Bool :=
  constructDepthsOk true 0 path

/-- Holds when the path re-acquires the lock and re-probes the key
immediately after the construction work. -/
def recheckAfterConstruct : List CacheStep → Bool
  | [] => false
  | CacheStep.constructStep :: rest =>
      match rest with
      | CacheStep.lockStep :: CacheStep.lookupStep :: _ => true
      | _ => false
  | _ :: rest => recheckAfterConstruct rest

/-- C2 counterexample: the claim requires all four caches to perform
construction without holding the cache lock, but the
descriptor-set-layout, pipeline-layout and named-descriptor-set caches
all run their construction inside a lock_guard on the cache mutex
(krender.cpp lines 2533-2582, 1266-1276, 2683-2686), so the double
checked create-outside-the-lock pattern fails for them. -/
theorem cache_construct_outside_lock_cex :
    constructsOutsideLock descriptorSetLayoutMissPath = false
    ∧ constructsOutsideLock pipelineLayoutMissPath = false
    ∧ constructsOutsideLock namedDescriptorSetMissPath = false := by
  decide

/-- C2 amended: only the shader-module cache follows the documented
pattern (construct outside the lock, re-check under the lock, discard
the duplicate when the race is lost, insert exactly once when it is
won); the other three caches run their construction while holding
their own mutex, which still leaves at most one object per key but
serializes construction on the same cache.  Each cache uses its own
mutex, so the four caches never share one lock. -/
theorem cache_population_pattern :
    (constructsOutsideLock (shaderModuleMissPath true) = true
      ∧ constructsOutsideLock (shaderModuleMissPath false) = true)
    ∧ (recheckAfterConstruct (shaderModuleMissPath true) = true
      ∧ recheckAfterConstruct (shaderModuleMissPath false) = true)
    ∧ (CacheStep.discardStep ∈ shaderModuleMissPath true
      ∧ CacheStep.insertStep ∉ shaderModuleMissPath true)
    ∧ (CacheStep.insertStep ∈ shaderModuleMissPath false
      ∧ CacheStep.discardStep ∉ shaderModuleMissPath false)
    ∧ constructsUnderLock descriptorSetLayoutMissPath = true
    ∧ constructsUnderLock pipelineLayoutMissPath = true
    ∧ constructsUnderLock namedDescriptorSetMissPath = true := by
  decide

/-- Model of one VkDescriptorPool as created by
DescriptorAllocator.createPool (krender.cpp lines 1949-1975): the
maxSets of the create info and the VkDescriptorPoolSize array computed
from the ratio span (descriptorCount = ratio * setCount; the repository
only ever uses whole-number ratio values, so the float product is
modelled by natural multiplication). -/
structure PoolDef where
  maxSets : Nat
  poolSizes : List (Nat × Nat)
deriving DecidableEq

/-- Model of kvk::DescriptorAllocator (krender.h lines 106-136).  Pool
handles are identifiers equal to their creation order; createdPools is
the driver-side record of every vkCreateDescriptorPool call, indexed by
that identifier. -/
structure DescriptorAllocator where
  ratios : List (Nat × Nat)
  fullPools : List Nat
  readyPools : List Nat
  setsPerPool : Nat
  createdPools : List PoolDef
deriving DecidableEq

/-- A default-constructed allocator (all vectors empty), the state in
which the source calls init. -/
def emptyDescriptorAllocator : DescriptorAllocator :=
  { ratios := [], fullPools := [], readyPools := [], setsPerPool := 0, createdPools := [] }

/-- MAX_SETS_PER_POOL (krender.h line 133). -/
def MAX_SETS_PER_POOL : Nat := 4096

/-- DescriptorAllocator.createPool (krender.cpp lines 1949-1975):
builds the pool-size array from the ratio span and creates the pool;
returns the new pool handle. -/
def createPool (a : DescriptorAllocator) (setCount : Nat)
    (poolRatios : List (Nat × Nat)) : Nat × DescriptorAllocator :=
  let poolSizes := poolRatios.map (fun pr => (pr.1, pr.2 * setCount))
  (a.createdPools.length,
   { a with createdPools := a.createdPools ++ [{ maxSets := setCount, poolSizes := poolSizes }] })

/-- Value stored into setsPerPool by init: the source computes
initialSets * 1.5f in IEEE float and truncates to uint32, which equals
initialSets + initialSets / 2 for every initialSets the repository
uses (krender.cpp line 649 passes 100000, renderer.cpp line 519 passes
1000, both exact in float). -/
def initSetsPerPool (initialSets : Nat) : Nat := initialSets + initialSets / 2

/-- DescriptorAllocator.init (krender.cpp lines 1922-1930): clears the
stored ratio vector, creates one pool from the caller ratio span and
initialSets, sets setsPerPool to initialSets * 1.5, and pushes the new
pool onto readyPools.  Note that the caller ratios are never copied
into the member vector. -/
def DescriptorAllocator.init (a : DescriptorAllocator) (initialSets : Nat)
    (poolRatios : List (Nat × Nat)) : DescriptorAllocator :=
  let a1 := { a with ratios := [] }
  let pr := createPool a1 initialSets poolRatios
  let a2 := { pr.2 with setsPerPool := initSetsPerPool initialSets }
  { a2 with readyPools := a2.readyPools ++ [pr.1] }

/-- DescriptorAllocator.getPool (krender.cpp lines 1932-1947): pop the
back of readyPools if non-empty; otherwise create a new pool sized at
setsPerPool from the stored member ratios and then set setsPerPool to
min(setsPerPool + setsPerPool / 2, MAX_SETS_PER_POOL). -/
def DescriptorAllocator.getPool (a : DescriptorAllocator) : Nat × DescriptorAllocator :=
  match a.readyPools.getLast? with
  | some p => (p, { a with readyPools := a.readyPools.dropLast })
  | none =>
      let pr := createPool a a.setsPerPool a.ratios
      (pr.1,
       { pr.2 with
           setsPerPool := min (pr.2.setsPerPool + pr.2.setsPerPool / 2) MAX_SETS_PER_POOL })

/-- DescriptorAllocator.clearPools (krender.cpp lines 1977-1992):
vkResetDescriptorPool is called on every pool of both lists, all full
pools are appended to readyPools, and fullPools is cleared. -/
def DescriptorAllocator.clearPools (a : DescriptorAllocator) : DescriptorAllocator :=
  { a with readyPools := a.readyPools ++ a.fullPools, fullPools := [] }

/-- The ordered list of pools whose contents clearPools resets
(the two vkResetDescriptorPool loops iterate readyPools then
fullPools). -/
def clearPoolsResetList (a : DescriptorAllocator) : List Nat :=
  a.readyPools ++ a.fullPools

/-- Result classification used by the retry loop of alloc
(krender.cpp line 2031). -/
def isPoolExhausted (r : VkResult) : Bool :=
  r = VkResult.VK_ERROR_OUT_OF_POOL_MEMORY || r = VkResult.VK_ERROR_FRAGMENTED_POOL

/-- The while loop of DescriptorAllocator.alloc (krender.cpp lines
2031-2039) with the driver modelled as a list of results for the
successive vkAllocateDescriptorSets attempts (an exhausted oracle
answers VK_SUCCESS).  While the current result is
VK_ERROR_OUT_OF_POOL_MEMORY or VK_ERROR_FRAGMENTED_POOL, the pool in
use is pushed onto fullPools and a fresh pool is taken from getPool;
on any other result the loop exits, the pool in use is pushed onto
readyPools and ReturnCode::OK is returned.  The final component is the
result of the last allocation attempt. -/
def allocLoop (a : DescriptorAllocator) (poolToUse : Nat) (r : VkResult) :
    List VkResult → DescriptorAllocator × ReturnCode × VkResult
  | [] =>
    if isPoolExhausted r then
      let a2 := { a with fullPools := a.fullPools ++ [poolToUse] }
      let pr := a2.getPool
      ({ pr.2 with readyPools := pr.2.readyPools ++ [pr.1] },
       ReturnCode.OK, VkResult.VK_SUCCESS)
    else
      ({ a with readyPools := a.readyPools ++ [poolToUse] }, ReturnCode.OK, r)
  | r2 :: rest =>
    if isPoolExhausted r then
      let a2 := { a with fullPools := a.fullPools ++ [poolToUse] }
      let pr := a2.getPool
      allocLoop pr.2 pr.1 r2 rest
    else
      ({ a with readyPools := a.readyPools ++ [poolToUse] }, ReturnCode.OK, r)

/-- DescriptorAllocator.alloc (krender.cpp lines 2011-2040): take a
pool from getPool, attempt the allocation, then run the retry loop. -/
def DescriptorAllocator.alloc (a : DescriptorAllocator) (driver : List VkResult) :
    DescriptorAllocator × ReturnCode × VkResult :=
  let pr := a.getPool
  match driver with
  | [] => allocLoop pr.2 pr.1 VkResult.VK_SUCCESS []
  | r :: rest => allocLoop pr.2 pr.1 r rest

/-- Number of allocation attempts the loop retries for a given first
result and remaining oracle. -/
def exhaustCount (r : VkResult) : List VkResult → Nat
  | [] => if isPoolExhausted r then 1 else 0
  | r2 :: rest => if isPoolExhausted r then 1 + exhaustCount r2 rest else 0

/-- Number of exhausted pools over a whole alloc call for a given
oracle. -/
def allocFailureCount (driver : List VkResult) : Nat :=
  match driver with
  | [] => 0
  | r :: rest => exhaustCount r rest

/-- The legacy DescriptorAllocator::alloc (renderer.cpp lines
1778-1806), with the same per-attempt result oracle as the krender
model (an exhausted oracle answers VK_SUCCESS).  It differs from the
krender while-loop: a single if retries exactly once.  On a first
result of OUT_OF_POOL_MEMORY or FRAGMENTED_POOL the pool in use is
pushed onto fullPools and a fresh pool is taken from getPool; the
retry is wrapped in VK_CHECK (renderer.h lines 25-32), which on any
non-VK_SUCCESS result logs and returns ReturnCode::UNKNOWN
immediately, skipping the readyPools.push_back.  Otherwise the pool in
use is pushed onto readyPools and OK is returned, also when the first
attempt failed with a non-exhaustion driver error. -/
def DescriptorAllocator.rAlloc (a : DescriptorAllocator) (driver : List VkResult) :
    DescriptorAllocator × ReturnCode × VkResult :=
  let pr := a.getPool
  let r1 := driver.headD VkResult.VK_SUCCESS
  let rest := driver.tail
  if isPoolExhausted r1 then
    let a2 := { pr.2 with fullPools := pr.2.fullPools ++ [pr.1] }
    let pr2 := a2.getPool
    let r2 := rest.headD VkResult.VK_SUCCESS
    if r2 ≠ VkResult.VK_SUCCESS then
      (pr2.2, ReturnCode.UNKNOWN, r2)
    else
      ({ pr2.2 with readyPools := pr2.2.readyPools ++ [pr2.1] }, ReturnCode.OK, r2)
  else
    ({ pr.2 with readyPools := pr.2.readyPools ++ [pr.1] }, ReturnCode.OK, r1)

/-- Allocator state after the legacy alloc has moved the exhausted
first pool to the full list and taken a fresh pool (renderer.cpp lines
1795-1797); the fresh pool is this state getPool components. -/
def rAllocRetryState (a : DescriptorAllocator) : DescriptorAllocator :=
  { a.getPool.2 with fullPools := a.getPool.2.fullPools ++ [a.getPool.1] }

theorem getPool_fullPools (a : DescriptorAllocator) :
    a.getPool.2.fullPools = a.fullPools := by
  unfold DescriptorAllocator.getPool
  cases a.readyPools.getLast? <;> simp [createPool]

theorem getPool_ratios (a : DescriptorAllocator) :
    a.getPool.2.ratios = a.ratios := by
  unfold DescriptorAllocator.getPool
  cases a.readyPools.getLast? <;> simp [createPool]

theorem getPool_pop (a : DescriptorAllocator) (p : Nat) (rest : List Nat)
    (h : a.readyPools = rest ++ [p]) :
    a.getPool = (p, { a with readyPools := rest }) := by
  unfold DescriptorAllocator.getPool
  rw [h, List.getLast?_concat, List.dropLast_concat]

theorem getPool_grow (a : DescriptorAllocator) (h : a.readyPools = []) :
    a.getPool =
      (a.createdPools.length,
       { a with
           createdPools := a.createdPools ++
             [{ maxSets := a.setsPerPool,
                poolSizes := a.ratios.map (fun pr => (pr.1, pr.2 * a.setsPerPool)) }],
           setsPerPool := min (a.setsPerPool + a.setsPerPool / 2) MAX_SETS_PER_POOL }) := by
  unfold DescriptorAllocator.getPool
  rw [h]
  simp [createPool, h]

/-- Invariant of the two pool lists: no duplicates across the lists,
every listed pool was created, and every created pool is listed. -/
def PoolInvariant (a : DescriptorAllocator) : Prop :=
  (a.readyPools ++ a.fullPools).Nodup
  ∧ (∀ p ∈ a.readyPools ++ a.fullPools, p < a.createdPools.length)
  ∧ ∀ p, p < a.createdPools.length → p ∈ a.readyPools ++ a.fullPools

/-- Variant of the invariant while one pool (the hole) is held by the
caller of getPool and is in neither list. -/
def HolePoolInvariant (a : DescriptorAllocator) (hole : Nat) : Prop :=
  (a.readyPools ++ a.fullPools).Nodup
  ∧ (∀ p ∈ a.readyPools ++ a.fullPools, p < a.createdPools.length)
  ∧ hole < a.createdPools.length
  ∧ hole ∉ a.readyPools ++ a.fullPools
  ∧ ∀ p, p < a.createdPools.length → p ∈ a.readyPools ++ a.fullPools ∨ p = hole

theorem nodup_perm_snoc {x : Nat} {l1 l2 : List Nat}
    (hn : (l1 ++ l2).Nodup) (hx : x ∉ l1 ++ l2) :
    (l1 ++ (l2 ++ [x])).Nodup ∧ ((l1 ++ [x]) ++ l2).Nodup := by
  have base : (x :: (l1 ++ l2)).Nodup := List.nodup_cons.2 ⟨hx, hn⟩
  constructor
  · have hperm : (x :: (l1 ++ l2)).Perm (l1 ++ (l2 ++ [x])) :=
      List.Perm.trans List.perm_middle.symm
        (List.Perm.append_left l1 (List.perm_append_singleton x l2).symm)
    exact hperm.nodup base
  · have hperm2 : ((x :: l1) ++ l2).Perm ((l1 ++ [x]) ++ l2) :=
      List.Perm.append_right l2 (List.perm_append_singleton x l1).symm
    exact hperm2.nodup base

theorem getPool_hole (a : DescriptorAllocator) (h : PoolInvariant a) :
    HolePoolInvariant a.getPool.2 a.getPool.1 := by
  obtain ⟨hnodup, hbound, hcomplete⟩ := h
  rcases List.eq_nil_or_concat a.readyPools with hready | ⟨rest, p, hready0⟩
  · rw [getPool_grow a hready]
    refine ⟨?_, ?_, ?_, ?_, ?_⟩
    · simpa [hready] using hnodup
    · intro q hq
      have := hbound q (by simpa [hready] using hq)
      simp only [List.length_append, List.length_cons, List.length_nil]
      omega
    · simp
    · intro hq
      have := hbound _ (by simpa [hready] using hq)
      omega
    · intro q hq
      simp only [List.length_append, List.length_cons, List.length_nil] at hq
      by_cases hlt : q < a.createdPools.length
      · left
        simpa [hready] using hcomplete q hlt
      · right
        omega
  · have hready : a.readyPools = rest ++ [p] := by
      simpa [List.concat_eq_append] using hready0
    rw [getPool_pop a p rest hready]
    have hassoc : a.readyPools ++ a.fullPools = rest ++ (p :: a.fullPools) := by
      rw [hready, List.append_assoc, List.singleton_append]
    rw [hassoc] at hnodup hbound hcomplete
    obtain ⟨hnr, hnpf, hdisj⟩ := List.nodup_append.1 hnodup
    have hpnotfull : p ∉ a.fullPools := (List.nodup_cons.1 hnpf).1
    have hpnotrest : p ∉ rest := fun hmem => hdisj hmem (List.mem_cons_self p _)
    refine ⟨?_, ?_, ?_, ?_, ?_⟩
    · exact List.nodup_append.2
        ⟨hnr, (List.nodup_cons.1 hnpf).2,
         fun {x} hx1 hx2 => hdisj hx1 (List.mem_cons_of_mem p hx2)⟩
    · intro q hq
      apply hbound
      rcases List.mem_append.1 hq with hql | hqr
      · exact List.mem_append.2 (Or.inl hql)
      · exact List.mem_append.2 (Or.inr (List.mem_cons_of_mem p hqr))
    · exact hbound p (List.mem_append.2 (Or.inr (List.mem_cons_self p _)))
    · intro hq
      rcases List.mem_append.1 hq with hql | hqr
      · exact hpnotrest hql
      · exact hpnotfull hqr
    · intro q hq
      rcases List.mem_append.1 (hcomplete q hq) with hql | hqr
      · exact Or.inl (List.mem_append.2 (Or.inl hql))
      · rcases List.mem_cons.1 hqr with hqp | hqf
        · exact Or.inr hqp
        · exact Or.inl (List.mem_append.2 (Or.inr hqf))

theorem pushFull_poolInvariant (a : DescriptorAllocator) (hole : Nat)
    (h : HolePoolInvariant a hole) :
    PoolInvariant { a with fullPools := a.fullPools ++ [hole] } := by
  obtain ⟨hnodup, hbound, hholeLt, hholeNot, hcomplete⟩ := h
  refine ⟨(nodup_perm_snoc hnodup hholeNot).1, ?_, ?_⟩
  · intro q hq
    rcases List.mem_append.1 hq with hql | hqr
    · exact hbound q (List.mem_append.2 (Or.inl hql))
    · rcases List.mem_append.1 hqr with hqf | hqx
      · exact hbound q (List.mem_append.2 (Or.inr hqf))
      · rw [List.mem_singleton.1 hqx]; exact hholeLt
  · intro q hq
    rcases hcomplete q hq with hmem | hq2
    · rcases List.mem_append.1 hmem with hql | hqr
      · exact List.mem_append.2 (Or.inl hql)
      · exact List.mem_append.2 (Or.inr (List.mem_append.2 (Or.inl hqr)))
    · exact List.mem_append.2 (Or.inr (List.mem_append.2 (Or.inr (by simp [hq2]))))

theorem pushReady_poolInvariant (a : DescriptorAllocator) (hole : Nat)
    (h : HolePoolInvariant a hole) :
    PoolInvariant { a with readyPools := a.readyPools ++ [hole] } := by
  obtain ⟨hnodup, hbound, hholeLt, hholeNot, hcomplete⟩ := h
  refine ⟨(nodup_perm_snoc hnodup hholeNot).2, ?_, ?_⟩
  · intro q hq
    rcases List.mem_append.1 hq with hql | hqr
    · rcases List.mem_append.1 hql with hqa | hqx
      · exact hbound q (List.mem_append.2 (Or.inl hqa))
      · rw [List.mem_singleton.1 hqx]; exact hholeLt
    · exact hbound q (List.mem_append.2 (Or.inr hqr))
  · intro q hq
    rcases hcomplete q hq with hmem | hq2
    · rcases List.mem_append.1 hmem with hql | hqr
      · exact List.mem_append.2 (Or.inl (List.mem_append.2 (Or.inl hql)))
      · exact List.mem_append.2 (Or.inr hqr)
    · exact List.mem_append.2 (Or.inl (List.mem_append.2 (Or.inr (by simp [hq2]))))

theorem allocLoop_poolInvariant :
    ∀ (driver : List VkResult) (a : DescriptorAllocator) (pool : Nat) (r : VkResult),
      HolePoolInvariant a pool → PoolInvariant (allocLoop a pool r driver).1 := by
  intro driver
  induction driver with
  | nil =>
      intro a pool r h
      by_cases hr : isPoolExhausted r = true
      · simp only [allocLoop, if_pos hr]
        exact pushReady_poolInvariant _ _
          (getPool_hole _ (pushFull_poolInvariant a pool h))
      · simp only [allocLoop, if_neg hr]
        exact pushReady_poolInvariant a pool h
  | cons r2 rest ih =>
      intro a pool r h
      by_cases hr : isPoolExhausted r = true
      · simp only [allocLoop, if_pos hr]
        exact ih _ _ r2 (getPool_hole _ (pushFull_poolInvariant a pool h))
      · simp only [allocLoop, if_neg hr]
        exact pushReady_poolInvariant a pool h

theorem allocLoop_spec :
    ∀ (driver : List VkResult) (a : DescriptorAllocator) (pool : Nat) (r : VkResult),
      (allocLoop a pool r driver).2.1 = ReturnCode.OK
      ∧ isPoolExhausted (allocLoop a pool r driver).2.2 = false
      ∧ (allocLoop a pool r driver).1.fullPools.length
          = a.fullPools.length + exhaustCount r driver
      ∧ (∃ t, (allocLoop a pool r driver).1.fullPools = a.fullPools ++ t)
      ∧ (∃ p l, (allocLoop a pool r driver).1.readyPools = l ++ [p])
      ∧ (allocLoop a pool r driver).1.ratios = a.ratios := by
  intro driver
  induction driver with
  | nil =>
      intro a pool r
      by_cases hr : isPoolExhausted r = true
      · simp only [allocLoop, if_pos hr, exhaustCount]
        refine ⟨by trivial, by trivial, ?_, ?_, ?_, ?_⟩
        · rw [getPool_fullPools]
          simp
        · rw [getPool_fullPools]
          exact ⟨[pool], rfl⟩
        · exact ⟨_, _, rfl⟩
        · rw [getPool_ratios]
      · simp only [allocLoop, if_neg hr, exhaustCount]
        refine ⟨by trivial, by simpa using hr, by simp, ⟨[], by simp⟩,
          ⟨pool, a.readyPools, by trivial⟩, by trivial⟩
  | cons r2 rest ih =>
      intro a pool r
      by_cases hr : isPoolExhausted r = true
      · simp only [allocLoop, if_pos hr, exhaustCount]
        obtain ⟨h1, h2, h3, ⟨t, ht⟩, h5, h6⟩ :=
          ih ({ a with fullPools := a.fullPools ++ [pool] } : DescriptorAllocator).getPool.2
            ({ a with fullPools := a.fullPools ++ [pool] } : DescriptorAllocator).getPool.1 r2
        refine ⟨h1, h2, ?_, ?_, h5, ?_⟩
        · rw [h3, getPool_fullPools]
          simp only [List.length_append, List.length_cons, List.length_nil]
          omega
        · rw [getPool_fullPools] at ht
          exact ⟨[pool] ++ t, by rw [ht, List.append_assoc]⟩
        · rw [h6, getPool_ratios]
      · simp only [allocLoop, if_neg hr, exhaustCount]
        refine ⟨by trivial, by simpa using hr, by simp, ⟨[], by simp⟩,
          ⟨pool, a.readyPools, by trivial⟩, by trivial⟩

/-- C3 counterexample, covering both cited implementations.  krender
(alloc, krender.cpp lines 2011-2040): the first allocation attempt
fails with VK_ERROR_OUT_OF_DEVICE_MEMORY, a true driver error; the
while loop only retries on OUT_OF_POOL_MEMORY or FRAGMENTED_POOL, so
it exits immediately, pushes the pool back onto readyPools and returns
ReturnCode::OK — no abort happens, the final attempt did not succeed,
and the driver error is silently swallowed, contradicting both
loop-until-success and abort-on-driver-error.  Legacy (rAlloc,
renderer.cpp lines 1778-1806): a first OUT_OF_POOL_MEMORY followed by
a second OUT_OF_POOL_MEMORY makes VK_CHECK return
ReturnCode::UNKNOWN, so pool exhaustion IS surfaced to the caller
there, contradicting pool-exhaustion-never-surfaced (and nothing
aborts in either implementation). -/
theorem alloc_ignores_driver_error_cex :
    ((emptyDescriptorAllocator.init 8 [(7, 1)]).alloc
        [VkResult.VK_ERROR_OUT_OF_DEVICE_MEMORY]).2.1 = ReturnCode.OK
    ∧ ((emptyDescriptorAllocator.init 8 [(7, 1)]).alloc
        [VkResult.VK_ERROR_OUT_OF_DEVICE_MEMORY]).2.2
        = VkResult.VK_ERROR_OUT_OF_DEVICE_MEMORY
    ∧ VkResult.VK_ERROR_OUT_OF_DEVICE_MEMORY ≠ VkResult.VK_SUCCESS
    ∧ isPoolExhausted VkResult.VK_ERROR_OUT_OF_DEVICE_MEMORY = false
    ∧ ((emptyDescriptorAllocator.init 8 [(7, 1)]).rAlloc
        [VkResult.VK_ERROR_OUT_OF_POOL_MEMORY,
         VkResult.VK_ERROR_OUT_OF_POOL_MEMORY]).2.1 = ReturnCode.UNKNOWN := by
  decide

/-- C3 amended, per implementation.  krender.cpp alloc: on every
OUT_OF_POOL_MEMORY or FRAGMENTED_POOL result the exhausted pool moves
to the full list and a fresh pool is taken from getPool, so pool
exhaustion is never surfaced; the loop exits on the first result that
is not one of those two codes; the pool last used is pushed back onto
the ready list and ReturnCode::OK is returned unconditionally — this
version never aborts and a non-pool-exhaustion driver error simply
ends the loop and is reported as OK.  renderer.cpp alloc: it retries
exactly once — a non-exhaustion first result (error or not) pushes the
pool to ready and returns OK; a first exhaustion moves the pool to
full and takes a fresh pool, and then any non-VK_SUCCESS retry result
(even another pool exhaustion) is surfaced as ReturnCode::UNKNOWN with
the fresh pool left out of the ready list, while a successful retry
pushes the fresh pool to ready and returns OK.  Neither implementation
aborts. -/
theorem alloc_retry_spec (a : DescriptorAllocator) (driver : List VkResult) :
    ((a.alloc driver).2.1 = ReturnCode.OK
      ∧ isPoolExhausted (a.alloc driver).2.2 = false
      ∧ (a.alloc driver).1.fullPools.length
          = a.fullPools.length + allocFailureCount driver
      ∧ (∃ t, (a.alloc driver).1.fullPools = a.fullPools ++ t)
      ∧ ∃ p l, (a.alloc driver).1.readyPools = l ++ [p])
    ∧ (∀ r1 rest2, isPoolExhausted r1 = false →
        a.rAlloc (r1 :: rest2)
          = ({ a.getPool.2 with
                 readyPools := a.getPool.2.readyPools ++ [a.getPool.1] },
             ReturnCode.OK, r1))
    ∧ (∀ r1 r2 rest2, isPoolExhausted r1 = true → r2 ≠ VkResult.VK_SUCCESS →
        a.rAlloc (r1 :: r2 :: rest2)
          = ((rAllocRetryState a).getPool.2, ReturnCode.UNKNOWN, r2))
    ∧ (∀ r1 rest2, isPoolExhausted r1 = true →
        a.rAlloc (r1 :: VkResult.VK_SUCCESS :: rest2)
          = ({ (rAllocRetryState a).getPool.2 with
                 readyPools := (rAllocRetryState a).getPool.2.readyPools
                   ++ [(rAllocRetryState a).getPool.1] },
             ReturnCode.OK, VkResult.VK_SUCCESS)) := by
  refine ⟨?_, ?_, ?_, ?_⟩
  · cases driver with
    | nil =>
        obtain ⟨h1, h2, h3, ⟨t, ht⟩, h5, _⟩ :=
          allocLoop_spec [] a.getPool.2 a.getPool.1 VkResult.VK_SUCCESS
        rw [getPool_fullPools] at h3 ht
        refine ⟨h1, h2, ?_, ⟨t, ht⟩, h5⟩
        simpa [DescriptorAllocator.alloc, allocFailureCount, exhaustCount] using h3
    | cons r rest =>
        obtain ⟨h1, h2, h3, ⟨t, ht⟩, h5, _⟩ :=
          allocLoop_spec rest a.getPool.2 a.getPool.1 r
        rw [getPool_fullPools] at h3 ht
        exact ⟨h1, h2, h3, ⟨t, ht⟩, h5⟩
  · intro r1 rest2 h1
    simp [DescriptorAllocator.rAlloc, h1]
  · intro r1 r2 rest2 h1 h2
    simp [DescriptorAllocator.rAlloc, rAllocRetryState, h1, h2]
  · intro r1 rest2 h1
    simp [DescriptorAllocator.rAlloc, rAllocRetryState, h1]

/-- Witness for C3 at the concrete post-init probe state, exercising
every hypothesis: a swallowed driver error in the krender loop, the
three legacy branches (no-retry swallow, surfaced failed retry,
successful retry). -/
theorem alloc_retry_spec_witness :
    (((emptyDescriptorAllocator.init 8 [(7, 1)]).alloc
          [VkResult.VK_ERROR_OUT_OF_DEVICE_MEMORY]).2.1 = ReturnCode.OK
      ∧ isPoolExhausted ((emptyDescriptorAllocator.init 8 [(7, 1)]).alloc
          [VkResult.VK_ERROR_OUT_OF_DEVICE_MEMORY]).2.2 = false
      ∧ ((emptyDescriptorAllocator.init 8 [(7, 1)]).alloc
          [VkResult.VK_ERROR_OUT_OF_DEVICE_MEMORY]).1.fullPools.length
          = (emptyDescriptorAllocator.init 8 [(7, 1)]).fullPools.length
            + allocFailureCount [VkResult.VK_ERROR_OUT_OF_DEVICE_MEMORY]
      ∧ (∃ t, ((emptyDescriptorAllocator.init 8 [(7, 1)]).alloc
          [VkResult.VK_ERROR_OUT_OF_DEVICE_MEMORY]).1.fullPools
          = (emptyDescriptorAllocator.init 8 [(7, 1)]).fullPools ++ t)
      ∧ ∃ p l, ((emptyDescriptorAllocator.init 8 [(7, 1)]).alloc
          [VkResult.VK_ERROR_OUT_OF_DEVICE_MEMORY]).1.readyPools = l ++ [p])
    ∧ (emptyDescriptorAllocator.init 8 [(7, 1)]).rAlloc
        [VkResult.VK_ERROR_OUT_OF_DEVICE_MEMORY]
        = ({ (emptyDescriptorAllocator.init 8 [(7, 1)]).getPool.2 with
               readyPools :=
                 (emptyDescriptorAllocator.init 8 [(7, 1)]).getPool.2.readyPools
                   ++ [(emptyDescriptorAllocator.init 8 [(7, 1)]).getPool.1] },
           ReturnCode.OK, VkResult.VK_ERROR_OUT_OF_DEVICE_MEMORY)
    ∧ (emptyDescriptorAllocator.init 8 [(7, 1)]).rAlloc
        [VkResult.VK_ERROR_OUT_OF_POOL_MEMORY, VkResult.VK_ERROR_FRAGMENTED_POOL]
        = ((rAllocRetryState (emptyDescriptorAllocator.init 8 [(7, 1)])).getPool.2,
           ReturnCode.UNKNOWN, VkResult.VK_ERROR_FRAGMENTED_POOL)
    ∧ (emptyDescriptorAllocator.init 8 [(7, 1)]).rAlloc
        [VkResult.VK_ERROR_OUT_OF_POOL_MEMORY, VkResult.VK_SUCCESS]
        = ({ (rAllocRetryState (emptyDescriptorAllocator.init 8 [(7, 1)])).getPool.2 with
               readyPools :=
                 (rAllocRetryState
                   (emptyDescriptorAllocator.init 8 [(7, 1)])).getPool.2.readyPools
                   ++ [(rAllocRetryState
                         (emptyDescriptorAllocator.init 8 [(7, 1)])).getPool.1] },
           ReturnCode.OK, VkResult.VK_SUCCESS) := by
  have h := alloc_retry_spec (emptyDescriptorAllocator.init 8 [(7, 1)])
      [VkResult.VK_ERROR_OUT_OF_DEVICE_MEMORY]
  exact ⟨h.1,
    h.2.1 VkResult.VK_ERROR_OUT_OF_DEVICE_MEMORY [] (by decide),
    h.2.2.1 VkResult.VK_ERROR_OUT_OF_POOL_MEMORY VkResult.VK_ERROR_FRAGMENTED_POOL []
      (by decide) (by decide),
    h.2.2.2 VkResult.VK_ERROR_OUT_OF_POOL_MEMORY [] (by decide)⟩

/-- Repeated getPool calls, observing only the allocator state. -/
def iterGetPool : Nat → DescriptorAllocator → DescriptorAllocator
  | 0, a => a
  | k + 1, a => iterGetPool k a.getPool.2

theorem getPool_setsPerPool_step (a : DescriptorAllocator)
    (h : a.setsPerPool ≤ MAX_SETS_PER_POOL) :
    a.setsPerPool ≤ a.getPool.2.setsPerPool
    ∧ a.getPool.2.setsPerPool ≤ MAX_SETS_PER_POOL := by
  rcases List.eq_nil_or_concat a.readyPools with hr | ⟨rest, p, hr0⟩
  · rw [getPool_grow a hr]
    exact ⟨Nat.le_min.2 ⟨Nat.le_add_right _ _, h⟩, Nat.min_le_right _ _⟩
  · have hr : a.readyPools = rest ++ [p] := by
      simpa [List.concat_eq_append] using hr0
    rw [getPool_pop a p rest hr]
    exact ⟨Nat.le_refl _, h⟩

theorem iterGetPool_bounds :
    ∀ (k : Nat) (a : DescriptorAllocator), a.setsPerPool ≤ MAX_SETS_PER_POOL →
      a.setsPerPool ≤ (iterGetPool k a).setsPerPool
      ∧ (iterGetPool k a).setsPerPool ≤ MAX_SETS_PER_POOL := by
  intro k
  induction k with
  | zero => intro a h; exact ⟨Nat.le_refl _, h⟩
  | succ m ih =>
      intro a h
      obtain ⟨h1, h2⟩ := getPool_setsPerPool_step a h
      obtain ⟨h3, h4⟩ := ih a.getPool.2 h2
      exact ⟨Nat.le_trans h1 h3, h4⟩

/-- The ratio table passed to DescriptorAllocator::init at krender.cpp
lines 640-649: descriptor type numbers are the VkDescriptorType enum
values (STORAGE_BUFFER 7, STORAGE_IMAGE 3, UNIFORM_BUFFER 6,
COMBINED_IMAGE_SAMPLER 1, SAMPLER 0, SAMPLED_IMAGE 2). -/
def krenderPoolSizeList : List (Nat × Nat) :=
  [(7, 30), (3, 30), (6, 30), (1, 40), (0, 100), (2, 100)]

/-- The allocator state produced by the actual initialization call
state.descriptors.init(state.device, 100000, ratios) at krender.cpp
line 649: setsPerPool becomes 150000. -/
def krenderDescriptors : DescriptorAllocator :=
  emptyDescriptorAllocator.init 100000 krenderPoolSizeList

/-- C7 counterexample: after the initialization the repository actually
performs (initialSets = 100000, krender.cpp line 649), setsPerPool is
150000, which already exceeds MAX_SETS_PER_POOL = 4096; the first
growth-path getPool then clamps it to 4096, so across that getPool
sequence setsPerPool strictly decreases.  Both halves of the claimed
so-clause fail on the program as shipped. -/
theorem getPool_baseline_cex :
    krenderDescriptors.setsPerPool = 150000
    ∧ MAX_SETS_PER_POOL < krenderDescriptors.setsPerPool
    ∧ (krenderDescriptors.getPool.2.getPool.2).setsPerPool = 4096
    ∧ (krenderDescriptors.getPool.2.getPool.2).setsPerPool
        < krenderDescriptors.getPool.2.setsPerPool := by
  decide

/-- Conclusion of the amended growth claim. -/
def GetPoolSpec (a : DescriptorAllocator) : Prop :=
  (∀ p rest, a.readyPools = rest ++ [p] →
      a.getPool = (p, { a with readyPools := rest }))
  ∧ (a.readyPools = [] →
      a.getPool.2.setsPerPool
        = min (a.setsPerPool + a.setsPerPool / 2) MAX_SETS_PER_POOL
      ∧ a.getPool.2.createdPools
          = a.createdPools ++
            [{ maxSets := a.setsPerPool,
               poolSizes := a.ratios.map (fun pr => (pr.1, pr.2 * a.setsPerPool)) }])
  ∧ ∀ k, a.setsPerPool ≤ (iterGetPool k a).setsPerPool
      ∧ (iterGetPool k a).setsPerPool ≤ MAX_SETS_PER_POOL

/-- C7 amended: getPool pops a ready pool without touching the
baseline, and otherwise creates a pool sized at the current baseline
and raises the baseline to min(baseline + baseline / 2,
MAX_SETS_PER_POOL); provided the baseline starts at or below
MAX_SETS_PER_POOL (which the repository initialization with
initialSets = 100000 violates), the baseline is non-decreasing across
any sequence of getPool calls and never exceeds MAX_SETS_PER_POOL. -/
theorem getPool_growth_spec (a : DescriptorAllocator)
    (h : a.setsPerPool ≤ MAX_SETS_PER_POOL) : GetPoolSpec a := by
  refine ⟨?_, ?_, fun k => iterGetPool_bounds k a h⟩
  · intro p rest hready
    exact getPool_pop a p rest hready
  · intro hready
    rw [getPool_grow a hready]
    exact ⟨rfl, rfl⟩

/-- Witness for C7 at the legacy per-frame initialization
(initialSets = 1000, renderer.cpp line 519), whose baseline 1500 is
below the cap. -/
theorem getPool_growth_spec_witness :
    (emptyDescriptorAllocator.init 1000 []).setsPerPool ≤ MAX_SETS_PER_POOL
    ∧ GetPoolSpec (emptyDescriptorAllocator.init 1000 []) :=
  ⟨by decide, getPool_growth_spec (emptyDescriptorAllocator.init 1000 []) (by decide)⟩

/-- Small allocator state used as a concrete probe: one pool created by
init, sitting in the ready list. -/
def allocProbe : DescriptorAllocator := emptyDescriptorAllocator.init 8 [(7, 1)]

/-- C9 counterexample: init creates pool 0 and puts it in the ready
list; a bare getPool call pops it and hands it to the caller, after
which the allocator still owns one created pool but both lists are
empty, so the popped pool is in neither list, contradicting
every-pool-in-exactly-one-list across init, getPool, alloc and
clearPools. -/
theorem pool_list_hole_cex :
    allocProbe.createdPools.length = 1
    ∧ allocProbe.readyPools = [0]
    ∧ allocProbe.fullPools = []
    ∧ allocProbe.getPool.1 = 0
    ∧ allocProbe.getPool.2.readyPools = []
    ∧ allocProbe.getPool.2.fullPools = []
    ∧ allocProbe.getPool.2.createdPools.length = 1 := by
  decide

/-- Conclusion of the amended pool-list claim. -/
def PoolListDiscipline (a : DescriptorAllocator) : Prop :=
  (clearPoolsResetList a = a.readyPools ++ a.fullPools
    ∧ a.clearPools.fullPools = []
    ∧ a.clearPools.readyPools = a.readyPools ++ a.fullPools
    ∧ PoolInvariant a.clearPools)
  ∧ (∀ driver, PoolInvariant ((a.alloc driver).1)
      ∧ ∃ t, ((a.alloc driver).1).fullPools = a.fullPools ++ t)
  ∧ (a.getPool.2.fullPools = a.fullPools
    ∧ a.getPool.1 ∉ a.getPool.2.readyPools ++ a.getPool.2.fullPools
    ∧ ∀ p, p < a.getPool.2.createdPools.length →
        p ∈ a.getPool.2.readyPools ++ a.getPool.2.fullPools ∨ p = a.getPool.1)

/-- C9 amended: clearPools resets the contents of every pool of both
lists and moves all full pools back to ready, leaving the full list
empty and every owned pool in the ready list; alloc restores the
every-pool-in-exactly-one-list invariant and only ever appends to the
full list (ready-to-full only on allocation failure); full-to-ready
happens only in clearPools; but between a getPool and the push that
alloc later performs, the popped pool is in neither list, so the
exactly-one property holds after init, alloc and clearPools and not
after a bare getPool. -/
theorem pool_list_discipline (a : DescriptorAllocator)
    (h : PoolInvariant a) : PoolListDiscipline a := by
  obtain ⟨hnodup, hbound, hcomplete⟩ := h
  have hhole := getPool_hole a ⟨hnodup, hbound, hcomplete⟩
  refine ⟨⟨rfl, rfl, rfl, ?_⟩, ?_, ?_⟩
  · refine ⟨?_, ?_, ?_⟩
    · simpa [DescriptorAllocator.clearPools] using hnodup
    · intro p hp
      simp only [DescriptorAllocator.clearPools, List.append_nil] at hp
      exact hbound p hp
    · intro p hp
      simpa [DescriptorAllocator.clearPools] using hcomplete p hp
  · intro driver
    constructor
    · cases driver with
      | nil =>
          show PoolInvariant (allocLoop a.getPool.2 a.getPool.1 VkResult.VK_SUCCESS []).1
          exact allocLoop_poolInvariant [] _ _ _ hhole
      | cons r rest =>
          show PoolInvariant (allocLoop a.getPool.2 a.getPool.1 r rest).1
          exact allocLoop_poolInvariant rest _ _ r hhole
    · cases driver with
      | nil =>
          obtain ⟨_, _, _, ⟨t, ht⟩, _, _⟩ :=
            allocLoop_spec [] a.getPool.2 a.getPool.1 VkResult.VK_SUCCESS
          rw [getPool_fullPools] at ht
          exact ⟨t, ht⟩
      | cons r rest =>
          obtain ⟨_, _, _, ⟨t, ht⟩, _, _⟩ :=
            allocLoop_spec rest a.getPool.2 a.getPool.1 r
          rw [getPool_fullPools] at ht
          exact ⟨t, ht⟩
  · obtain ⟨_, _, _, hnot, hcomp⟩ := hhole
    exact ⟨getPool_fullPools a, hnot, hcomp⟩

/-- Witness for C9 at the concrete post-init probe state. -/
theorem pool_list_discipline_witness :
    PoolInvariant allocProbe ∧ PoolListDiscipline allocProbe :=
  ⟨by unfold PoolInvariant; decide,
   pool_list_discipline allocProbe (by unfold PoolInvariant; decide)⟩

/-- Conclusion of the ratio-table claim. -/
def InitRatiosSpec (a b : DescriptorAllocator) (initialSets : Nat)
    (poolRatios : List (Nat × Nat)) : Prop :=
  (a.init initialSets poolRatios).ratios = []
  ∧ (a.init initialSets poolRatios).createdPools.getLast?
      = some { maxSets := initialSets,
               poolSizes := poolRatios.map (fun pr => (pr.1, pr.2 * initialSets)) }
  ∧ b.getPool.2.createdPools.getLast?
      = some { maxSets := b.setsPerPool, poolSizes := [] }
  ∧ b.getPool.2.ratios = b.ratios
  ∧ b.clearPools.ratios = b.ratios
  ∧ ∀ driver, (b.alloc driver).1.ratios = b.ratios

/-- C10: init clears the stored ratio vector and never copies the
caller span into it (the initial pool alone is sized from the caller
ratios), the member ratio table stays empty across getPool, clearPools
and alloc, and therefore every pool created on the growth path of
getPool carries maxSets = setsPerPool with an empty pool-size array. -/
theorem init_ratios_not_stored (a b : DescriptorAllocator) (initialSets : Nat)
    (poolRatios : List (Nat × Nat)) (hb1 : b.ratios = []) (hb2 : b.readyPools = []) :
    InitRatiosSpec a b initialSets poolRatios := by
  refine ⟨rfl, ?_, ?_, getPool_ratios b, rfl, ?_⟩
  · simp [DescriptorAllocator.init, createPool, List.getLast?_concat]
  · rw [getPool_grow b hb2]
    simp [hb1, List.getLast?_concat]
  · intro driver
    cases driver with
    | nil =>
        obtain ⟨_, _, _, _, _, h6⟩ :=
          allocLoop_spec [] b.getPool.2 b.getPool.1 VkResult.VK_SUCCESS
        show (allocLoop b.getPool.2 b.getPool.1 VkResult.VK_SUCCESS []).1.ratios = b.ratios
        rw [h6, getPool_ratios]
    | cons r rest =>
        obtain ⟨_, _, _, _, _, h6⟩ :=
          allocLoop_spec rest b.getPool.2 b.getPool.1 r
        show (allocLoop b.getPool.2 b.getPool.1 r rest).1.ratios = b.ratios
        rw [h6, getPool_ratios]

/-- Witness for C10 at the repository init call and an empty-state
growth probe. -/
theorem init_ratios_not_stored_witness :
    emptyDescriptorAllocator.ratios = []
    ∧ emptyDescriptorAllocator.readyPools = []
    ∧ InitRatiosSpec emptyDescriptorAllocator emptyDescriptorAllocator
        100000 krenderPoolSizeList :=
  ⟨rfl, rfl,
   init_ratios_not_stored emptyDescriptorAllocator emptyDescriptorAllocator
     100000 krenderPoolSizeList rfl rfl⟩

/-- MAX_IN_FLIGHT_FRAMES (krender.h line 49). -/
def MAX_IN_FLIGHT_FRAMES : Nat := 3

/-- VkQueueFlagBits values used by lockCommandPool. -/
def VK_QUEUE_GRAPHICS_BIT : Nat := 1

/-- Transfer queue capability bit. -/
def VK_QUEUE_TRANSFER_BIT : Nat := 4

/-- Deferred cleanup callbacks stored in FrameData.deletionQueue.  The
closure registered by startFrame (krender.cpp lines 2239-2241), which
captures the PoolInfo and calls unlockCommandPool, is unlockPoolAct;
every other type-erased closure is opaque and modelled as otherAct. -/
inductive DeferredAction
  | unlockPoolAct (queueFamily slot : Nat)
  | otherAct (id : Nat)
deriving DecidableEq

/-- Observable calls made by startFrame and endFrame, in program
order. -/
inductive FrameEvt
  | fenceWaitEvt (res : VkResult)
  | acquireEvt (res : VkResult)
  | resetFencesEvt
  | drainEvt (executed : List DeferredAction)
  | clearPoolsEvt
  | lockPoolEvt (queueFamily slot : Nat)
  | submitEvt (res : VkResult)
  | presentEvt (res : VkResult)
deriving DecidableEq

/-- Model of kvk::FrameData (krender.h lines 558-568) restricted to the
fields the frame cycle mutates: the swapchain image index, the queue
the lease came from (the Queue pointer, modelled as a family index)
and the deletion queue.  Note this FrameData has no descriptor
allocator member. -/
structure FrameData where
  swapchainImageIndex : Nat
  queueFamily : Nat
  deletionQueue : List DeferredAction
deriving DecidableEq

/-- Out-of-range default used to totalize list indexing; the source
indexes fixed-size arrays that are always in range. -/
def dfltFrame : FrameData :=
  { swapchainImageIndex := 0, queueFamily := 0, deletionQueue := [] }

/-- Out-of-range default queue (no slots). -/
def dfltQueue : Queue := { isSlotOccupied := [], freePoolCount := 0 }

/-- Model of kvk::RendererState (krender.h lines 570-610) restricted to
the frame-cycle state: current frame index, the queue array, the
per-frame records, and the hardware concurrency used by the
unlockCommandPool assertion. -/
structure RendererState where
  currentFrame : Nat
  queues : List Queue
  frames : List FrameData
  hwConcurrency : Nat
deriving DecidableEq

/-- Executes one deferred callback: the lease-return closure calls
unlockCommandPool on its captured PoolInfo (none models its assertions
firing); opaque callbacks do not touch the lease state. -/
def runDeferredAction (qs : List Queue) (hw : Nat) :
    DeferredAction → Option (List Queue)
  | DeferredAction.unlockPoolAct fam slot =>
      match unlockCommandPoolQ (qs.getD fam dfltQueue) slot hw with
      | some q2 => some (qs.set fam q2)
      | none => none
  | DeferredAction.otherAct _ => some qs

/-- Runs an already-reversed deletion queue front to back, returning
the final lease state and the execution log in execution order. -/
def drainAux (qs : List Queue) (hw : Nat) :
    List DeferredAction → Option (List Queue × List DeferredAction)
  | [] => some (qs, [])
  | act :: rest =>
      match runDeferredAction qs hw act with
      | none => none
      | some qs2 =>
          match drainAux qs2 hw rest with
          | none => none
          | some (qs3, lg) => some (qs3, act :: lg)

/-- The deletion-queue drain of startFrame (krender.cpp lines
2226-2233 and renderer.cpp lines 1882-1885): the loop iterates the
vector from rbegin to rend, invoking each callback in reverse
registration order, then frame.deletionQueue.clear() empties the
vector (the third component). -/
def drainDeletionQueue (qs : List Queue) (hw : Nat) (dq : List DeferredAction) :
    Option (List Queue × List DeferredAction × List DeferredAction) :=
  match drainAux qs hw dq.reverse with
  | none => none
  | some (qs2, lg) => some (qs2, lg, [])

/-- Queue-family selection of lockCommandPool (krender.cpp lines
2926-2931): the commented-out capability scoring is replaced by a
fixed mapping, transfer-only requests go to family 1 and everything
else to family 0. -/
def queueFamilyIndexFor (desiredQueueFlags : Nat) : Nat :=
  if desiredQueueFlags = VK_QUEUE_TRANSFER_BIT then 1 else 0

/-- Caller-visible return of kvk::startFrame: a frame pointer, the
nullptr returned on out-of-date or on any other acquire failure, or no
return at all (an assertion fired or the pool wait never completes). -/
inductive KFrameRet
  | framePtr (frameIndex : Nat)
  | nullPtr
  | noReturn
deriving DecidableEq

/-- kvk::startFrame (krender.cpp lines 2186-2244).  Program order: wait
on the frame in-flight fence (one-second timeout; failure asserts),
vkAcquireNextImageKHR, store the image index, vkResetFences, return
nullptr on VK_ERROR_OUT_OF_DATE_KHR or on any result that is neither
VK_SUCCESS nor VK_SUBOPTIMAL_KHR, drain and clear the frame deletion
queue, lease a graphics command-pool slot via lockCommandPool, store
the lease into the frame, and register the lease return as a deferred
callback on the now-empty deletion queue.  fenceRes and acquireRes are
the driver oracles, imageIndex the acquired image. -/
def kStartFrame (s : RendererState) (fenceRes acquireRes : VkResult)
    (imageIndex : Nat) : RendererState × KFrameRet × List FrameEvt :=
  let fi := s.currentFrame
  let frame := s.frames.getD fi dfltFrame
  if fenceRes ≠ VkResult.VK_SUCCESS then
    (s, KFrameRet.noReturn, [FrameEvt.fenceWaitEvt fenceRes])
  else
    let frame1 := { frame with swapchainImageIndex := imageIndex }
    let s1 := { s with frames := s.frames.set fi frame1 }
    let evts0 := [FrameEvt.fenceWaitEvt fenceRes, FrameEvt.acquireEvt acquireRes,
                  FrameEvt.resetFencesEvt]
    if acquireRes = VkResult.VK_ERROR_OUT_OF_DATE_KHR then
      (s1, KFrameRet.nullPtr, evts0)
    else if acquireRes ≠ VkResult.VK_SUCCESS ∧ acquireRes ≠ VkResult.VK_SUBOPTIMAL_KHR then
      (s1, KFrameRet.nullPtr, evts0)
    else
      match drainDeletionQueue s1.queues s1.hwConcurrency frame1.deletionQueue with
      | none => (s1, KFrameRet.noReturn, evts0)
      | some (qs2, lg, clearedQ) =>
          let evts1 := evts0 ++ [FrameEvt.drainEvt lg]
          let fam := queueFamilyIndexFor VK_QUEUE_GRAPHICS_BIT
          match lockCommandPoolQ (qs2.getD fam dfltQueue) with
          | LockOutcome.blocked =>
              ({ s1 with queues := qs2 }, KFrameRet.noReturn, evts1)
          | LockOutcome.assertFailed =>
              ({ s1 with queues := qs2 }, KFrameRet.noReturn, evts1)
          | LockOutcome.acquired q2 slot =>
              let frame2 := { frame1 with
                queueFamily := fam,
                deletionQueue := clearedQ ++ [DeferredAction.unlockPoolAct fam slot] }
              ({ s1 with queues := qs2.set fam q2, frames := s1.frames.set fi frame2 },
               KFrameRet.framePtr fi, evts1 ++ [FrameEvt.lockPoolEvt fam slot])

/-- kvk::endFrame (krender.cpp lines 2246-2296): advance currentFrame
mod MAX_IN_FLIGHT_FRAMES, submit under the queue submission mutex
(any nonzero VkResult returns ReturnCode::UNKNOWN), then present:
VK_ERROR_OUT_OF_DATE_KHR returns UNKNOWN, any result other than
VK_SUCCESS and VK_SUBOPTIMAL_KHR returns UNKNOWN, otherwise OK.  The
queue lease state is never touched. -/
def kEndFrame (s : RendererState) (frame : FrameData)
    (submitRes presentRes : VkResult) : RendererState × ReturnCode × List FrameEvt :=
  let s1 := { s with currentFrame := (s.currentFrame + 1) % MAX_IN_FLIGHT_FRAMES }
  if submitRes ≠ VkResult.VK_SUCCESS then
    (s1, ReturnCode.UNKNOWN, [FrameEvt.submitEvt submitRes])
  else if presentRes = VkResult.VK_ERROR_OUT_OF_DATE_KHR then
    (s1, ReturnCode.UNKNOWN, [FrameEvt.submitEvt submitRes, FrameEvt.presentEvt presentRes])
  else if presentRes ≠ VkResult.VK_SUCCESS ∧ presentRes ≠ VkResult.VK_SUBOPTIMAL_KHR then
    (s1, ReturnCode.UNKNOWN, [FrameEvt.submitEvt submitRes, FrameEvt.presentEvt presentRes])
  else
    (s1, ReturnCode.OK, [FrameEvt.submitEvt submitRes, FrameEvt.presentEvt presentRes])

/-- Model of the legacy FrameData (renderer.h lines 171-180), which
does own a per-frame DescriptorAllocator. -/
structure FrameDataR where
  swapchainImageIndex : Nat
  descriptors : DescriptorAllocator
  deletionQueue : List DeferredAction
deriving DecidableEq

/-- Out-of-range default for the legacy frame array. -/
def dfltFrameR : FrameDataR :=
  { swapchainImageIndex := 0, descriptors := emptyDescriptorAllocator, deletionQueue := [] }

/-- Model of the legacy RendererState (renderer.h) restricted to the
frame cycle. -/
structure RendererStateR where
  currentFrame : Nat
  frames : List FrameDataR
deriving DecidableEq

/-- Legacy startFrame (renderer.cpp lines 1870-1907).  Program order:
wait on the in-flight fence (result ignored), drain and clear the
frame deletion queue in reverse registration order, reset the frame
descriptor pools via clearPools, vkAcquireNextImageKHR, store the
image index, vkResetFences, then return nullptr on
VK_ERROR_OUT_OF_DATE_KHR or on any result that is neither VK_SUCCESS
nor VK_SUBOPTIMAL_KHR, and the frame otherwise.  The legacy design has
no per-frame command-pool lease, and its opaque deferred callbacks are
executed without a modelled effect. -/
def rStartFrame (s : RendererStateR) (fenceRes acquireRes : VkResult)
    (imageIndex : Nat) : RendererStateR × Option Nat × List FrameEvt :=
  let fi := s.currentFrame
  let frame := s.frames.getD fi dfltFrameR
  let lg := frame.deletionQueue.reverse
  let frame1 := { frame with
    deletionQueue := [],
    descriptors := frame.descriptors.clearPools,
    swapchainImageIndex := imageIndex }
  let s1 := { s with frames := s.frames.set fi frame1 }
  let evts := [FrameEvt.fenceWaitEvt fenceRes, FrameEvt.drainEvt lg,
               FrameEvt.clearPoolsEvt, FrameEvt.acquireEvt acquireRes,
               FrameEvt.resetFencesEvt]
  if acquireRes = VkResult.VK_ERROR_OUT_OF_DATE_KHR then (s1, none, evts)
  else if acquireRes ≠ VkResult.VK_SUCCESS ∧ acquireRes ≠ VkResult.VK_SUBOPTIMAL_KHR then
    (s1, none, evts)
  else (s1, some fi, evts)

/-- A freshly initialized renderer state with two queue families of
two slots each (hardware concurrency 2) and three empty frame
records. -/
def kInitState : RendererState :=
  { currentFrame := 0,
    queues := [initQueue 2, initQueue 2],
    frames := List.replicate 3 dfltFrame,
    hwConcurrency := 2 }

/-- C8: draining a frame deletion queue holding callbacks A, then B,
then C (registered in that order by push_back) executes them in the
order C, B, A and leaves the queue empty; this drainDeletionQueue is
exactly the drain-and-clear performed by startFrame. -/
theorem deletionQueue_lifo (qs : List Queue) (hw a b c : Nat) :
    drainDeletionQueue qs hw
      [DeferredAction.otherAct a, DeferredAction.otherAct b, DeferredAction.otherAct c]
      = some (qs,
          [DeferredAction.otherAct c, DeferredAction.otherAct b, DeferredAction.otherAct a],
          []) := by
  rfl

/-- C5 counterexample: a fully successful kvk::startFrame call on a
fresh state hands the frame to the caller without ever calling
clearPools — the krender.cpp startFrame has no clearPools call and its
FrameData owns no descriptor allocator, so the claim that every
startFrame resets the frame descriptor pools fails on this call. -/
theorem startFrame_no_clearPools_cex :
    (kStartFrame kInitState VkResult.VK_SUCCESS VkResult.VK_SUCCESS 0).2.1
      = KFrameRet.framePtr 0
    ∧ FrameEvt.clearPoolsEvt
        ∉ (kStartFrame kInitState VkResult.VK_SUCCESS VkResult.VK_SUCCESS 0).2.2 := by
  decide

/-- C5 amended: the legacy renderer.cpp startFrame does call clearPools
on the frame own allocator, after the fence wait and after draining
the deletion queue and before the frame is handed to the caller (its
event trace is always fence wait, drain, clearPools, acquire, reset);
the kvk::startFrame of krender.cpp never calls clearPools on any
path. -/
theorem clearPools_call_sites (s : RendererStateR) (s2 : RendererState)
    (fres ares fres2 ares2 : VkResult) (idx idx2 : Nat) :
    (rStartFrame s fres ares idx).2.2
      = [FrameEvt.fenceWaitEvt fres,
         FrameEvt.drainEvt
           ((s.frames.getD s.currentFrame dfltFrameR).deletionQueue.reverse),
         FrameEvt.clearPoolsEvt, FrameEvt.acquireEvt ares, FrameEvt.resetFencesEvt]
    ∧ FrameEvt.clearPoolsEvt ∉ (kStartFrame s2 fres2 ares2 idx2).2.2 := by
  constructor
  · unfold rStartFrame
    split_ifs <;> rfl
  · unfold kStartFrame
    split_ifs <;> try simp
    split <;> try simp
    split <;> simp

/-- C6 counterexample: the retryable out-of-date condition and a fatal
driver error produce byte-identical caller-visible values — both make
startFrame return nullptr and both make endFrame return
ReturnCode::UNKNOWN — so no distinguished rebuild/skip-frame value
exists, contradicting the claim that the values differ. -/
theorem retryable_equals_fatal_cex :
    (kStartFrame kInitState VkResult.VK_SUCCESS VkResult.VK_ERROR_OUT_OF_DATE_KHR 0).2.1
      = (kStartFrame kInitState VkResult.VK_SUCCESS VkResult.VK_ERROR_DEVICE_LOST 0).2.1
    ∧ (kEndFrame kInitState dfltFrame VkResult.VK_SUCCESS
        VkResult.VK_ERROR_OUT_OF_DATE_KHR).2.1
      = (kEndFrame kInitState dfltFrame VkResult.VK_SUCCESS
          VkResult.VK_ERROR_DEVICE_LOST).2.1
    ∧ (kStartFrame kInitState VkResult.VK_SUCCESS VkResult.VK_ERROR_OUT_OF_DATE_KHR 0).2.1
        = KFrameRet.nullPtr
    ∧ (kEndFrame kInitState dfltFrame VkResult.VK_SUCCESS
        VkResult.VK_ERROR_OUT_OF_DATE_KHR).2.1 = ReturnCode.UNKNOWN := by
  decide

/-- C6 amended: endFrame returns OK exactly when the submit succeeds
and the present result is VK_SUCCESS or VK_SUBOPTIMAL_KHR (so
suboptimal is treated as success); an out-of-date acquire makes
startFrame return nullptr, exactly like a fatal acquire error, and a
suboptimal acquire never returns nullptr; an out-of-date present
yields the same ReturnCode as a fatal present error.  The retryable
conditions are therefore absorbed or conflated with fatal errors, not
returned as a distinguished value. -/
theorem present_error_signal_spec (s : RendererState) (frame : FrameData)
    (submitRes : VkResult) (s2 : RendererState) (idx : Nat) :
    ((kEndFrame s frame submitRes VkResult.VK_SUCCESS).2.1 = ReturnCode.OK
        ↔ submitRes = VkResult.VK_SUCCESS)
    ∧ (∀ presentRes,
        (kEndFrame s frame submitRes presentRes).2.1 = ReturnCode.OK
          ↔ (submitRes = VkResult.VK_SUCCESS
              ∧ (presentRes = VkResult.VK_SUCCESS ∨ presentRes = VkResult.VK_SUBOPTIMAL_KHR)))
    ∧ (kStartFrame s2 VkResult.VK_SUCCESS VkResult.VK_ERROR_OUT_OF_DATE_KHR idx).2.1
        = KFrameRet.nullPtr
    ∧ (kStartFrame s2 VkResult.VK_SUCCESS VkResult.VK_ERROR_DEVICE_LOST idx).2.1
        = KFrameRet.nullPtr
    ∧ (kStartFrame s2 VkResult.VK_SUCCESS VkResult.VK_SUBOPTIMAL_KHR idx).2.1
        ≠ KFrameRet.nullPtr
    ∧ ∀ presentRes1 presentRes2,
        presentRes1 ≠ VkResult.VK_SUCCESS → presentRes1 ≠ VkResult.VK_SUBOPTIMAL_KHR →
        presentRes2 ≠ VkResult.VK_SUCCESS → presentRes2 ≠ VkResult.VK_SUBOPTIMAL_KHR →
        (kEndFrame s frame submitRes presentRes1).2.1
          = (kEndFrame s frame submitRes presentRes2).2.1 := by
  have hend : ∀ presentRes,
      (kEndFrame s frame submitRes presentRes).2.1 = ReturnCode.OK
        ↔ (submitRes = VkResult.VK_SUCCESS
            ∧ (presentRes = VkResult.VK_SUCCESS ∨ presentRes = VkResult.VK_SUBOPTIMAL_KHR)) := by
    intro presentRes
    unfold kEndFrame
    split_ifs with h1 h2 h3
    · simp [h1]
    · constructor
      · intro hc; cases hc
      · rintro ⟨-, hp⟩
        rw [h2] at hp
        rcases hp with hp | hp <;> cases hp
    · constructor
      · intro hc; cases hc
      · rintro ⟨-, hp⟩
        rcases hp with hp | hp
        · exact absurd hp h3.1
        · exact absurd hp h3.2
    · simp only [true_iff]
      refine ⟨not_not.1 (fun hne => h1 hne), ?_⟩
      rcases not_and_or.1 h3 with h4 | h4
      · exact Or.inl (not_not.1 h4)
      · exact Or.inr (not_not.1 h4)
  refine ⟨?_, hend, ?_, ?_, ?_, ?_⟩
  · simpa using hend VkResult.VK_SUCCESS
  · unfold kStartFrame
    simp
  · unfold kStartFrame
    simp
  · unfold kStartFrame
    rw [if_neg (by decide : ¬(VkResult.VK_SUCCESS ≠ VkResult.VK_SUCCESS)),
        if_neg (by decide :
          ¬(VkResult.VK_SUBOPTIMAL_KHR = VkResult.VK_ERROR_OUT_OF_DATE_KHR)),
        if_neg (by decide :
          ¬(VkResult.VK_SUBOPTIMAL_KHR ≠ VkResult.VK_SUCCESS
             ∧ VkResult.VK_SUBOPTIMAL_KHR ≠ VkResult.VK_SUBOPTIMAL_KHR))]
    split <;> try simp
    split <;> simp
  · intro p1 p2 h1 h2 h3 h4
    unfold kEndFrame
    split_ifs <;> simp_all

theorem kEndFrame_queues (s : RendererState) (f : FrameData) (a b : VkResult) :
    (kEndFrame s f a b).1.queues = s.queues := by
  unfold kEndFrame
  split_ifs <;> rfl

/-- Conclusion of the deferred-lease-return claim: the successful
startFrame marks the leased slot occupied and registers the return
only as a deferred callback, endFrame leaves the lease state
untouched, and executing that deferred callback (which the next
startFrame on the frame slot does during its post-fence drain) is what
frees the slot. -/
def LeaseOutlivesFrame (s : RendererState) (imageIndex : Nat)
    (qs2 : List Queue) (lg : List DeferredAction) (q2 : Queue) (slot : Nat) : Prop :=
  kStartFrame s VkResult.VK_SUCCESS VkResult.VK_SUCCESS imageIndex
      = ({ s with
             queues := qs2.set 0 q2,
             frames := (s.frames.set s.currentFrame
               { s.frames.getD s.currentFrame dfltFrame with
                   swapchainImageIndex := imageIndex }).set s.currentFrame
               { swapchainImageIndex := imageIndex,
                 queueFamily := 0,
                 deletionQueue := [DeferredAction.unlockPoolAct 0 slot] } },
         KFrameRet.framePtr s.currentFrame,
         [FrameEvt.fenceWaitEvt VkResult.VK_SUCCESS,
          FrameEvt.acquireEvt VkResult.VK_SUCCESS, FrameEvt.resetFencesEvt,
          FrameEvt.drainEvt lg, FrameEvt.lockPoolEvt 0 slot])
  ∧ (((kStartFrame s VkResult.VK_SUCCESS VkResult.VK_SUCCESS imageIndex).1.queues.getD 0
        dfltQueue).isSlotOccupied.getD slot false = true)
  ∧ ((kStartFrame s VkResult.VK_SUCCESS VkResult.VK_SUCCESS imageIndex).1.frames.getD
        s.currentFrame dfltFrame).deletionQueue = [DeferredAction.unlockPoolAct 0 slot]
  ∧ (∀ f submitRes presentRes,
      (kEndFrame (kStartFrame s VkResult.VK_SUCCESS VkResult.VK_SUCCESS imageIndex).1
          f submitRes presentRes).1.queues
        = (kStartFrame s VkResult.VK_SUCCESS VkResult.VK_SUCCESS imageIndex).1.queues)
  ∧ ∀ qs hw,
      slot < (qs.getD 0 dfltQueue).isSlotOccupied.length →
      (qs.getD 0 dfltQueue).isSlotOccupied.getD slot false = true →
      (qs.getD 0 dfltQueue).freePoolCount ≠ hw →
      0 < qs.length →
      drainDeletionQueue qs hw [DeferredAction.unlockPoolAct 0 slot]
          = some (qs.set 0
              { isSlotOccupied := (qs.getD 0 dfltQueue).isSlotOccupied.set slot false,
                freePoolCount := (qs.getD 0 dfltQueue).freePoolCount + 1 },
              [DeferredAction.unlockPoolAct 0 slot], [])
        ∧ ((qs.set 0
              { isSlotOccupied := (qs.getD 0 dfltQueue).isSlotOccupied.set slot false,
                freePoolCount := (qs.getD 0 dfltQueue).freePoolCount + 1 }).getD 0
             dfltQueue).isSlotOccupied.getD slot false = false

/-- C4: when startFrame of cycle N succeeds and leases slot `slot` on
the graphics queue (family 0), the slot is marked occupied, the only
registered return of that lease is the deferred unlockCommandPool
callback sitting alone in the frame deletion queue, endFrame (submit
and present) never changes any queue occupancy, and the slot becomes
free exactly by executing that deferred callback, which happens inside
the drain a later startFrame on the same frame slot performs after its
own fence wait (the event order fenceWait, acquire, resetFences,
drain, lockPool of the trace shows the drain runs after the fence
wait). -/
theorem startFrame_lease_outlives_frame
    (s : RendererState) (imageIndex : Nat) (qs2 : List Queue)
    (lg : List DeferredAction) (q2 : Queue) (slot : Nat)
    (hfi : s.currentFrame < s.frames.length)
    (hq0 : 0 < s.queues.length)
    (hlen2 : qs2.length = s.queues.length)
    (hdrain : drainDeletionQueue s.queues s.hwConcurrency
        (s.frames.getD s.currentFrame dfltFrame).deletionQueue = some (qs2, lg, []))
    (hlock : lockCommandPoolQ (qs2.getD 0 dfltQueue) = LockOutcome.acquired q2 slot) :
    LeaseOutlivesFrame s imageIndex qs2 lg q2 slot := by
  obtain ⟨hfpc, hfind, hq2⟩ := lockCommandPoolQ_acquired hlock
  obtain ⟨hslotlt, hslotfree⟩ := findFirstFreeSlot_spec _ _ hfind
  have hfam : queueFamilyIndexFor VK_QUEUE_GRAPHICS_BIT = 0 := by decide
  have hmain : kStartFrame s VkResult.VK_SUCCESS VkResult.VK_SUCCESS imageIndex
      = ({ s with
             queues := qs2.set 0 q2,
             frames := (s.frames.set s.currentFrame
               { s.frames.getD s.currentFrame dfltFrame with
                   swapchainImageIndex := imageIndex }).set s.currentFrame
               { swapchainImageIndex := imageIndex,
                 queueFamily := 0,
                 deletionQueue := [DeferredAction.unlockPoolAct 0 slot] } },
         KFrameRet.framePtr s.currentFrame,
         [FrameEvt.fenceWaitEvt VkResult.VK_SUCCESS,
          FrameEvt.acquireEvt VkResult.VK_SUCCESS, FrameEvt.resetFencesEvt,
          FrameEvt.drainEvt lg, FrameEvt.lockPoolEvt 0 slot]) := by
    unfold kStartFrame
    rw [if_neg (by decide : ¬(VkResult.VK_SUCCESS ≠ VkResult.VK_SUCCESS))]
    dsimp only
    rw [if_neg (by decide :
          ¬(VkResult.VK_SUCCESS = VkResult.VK_ERROR_OUT_OF_DATE_KHR)),
        if_neg (by decide :
          ¬(VkResult.VK_SUCCESS ≠ VkResult.VK_SUCCESS
             ∧ VkResult.VK_SUCCESS ≠ VkResult.VK_SUBOPTIMAL_KHR))]
    rw [hdrain]
    dsimp only
    rw [hfam, hlock]
    rfl
  refine ⟨hmain, ?_, ?_, ?_, ?_⟩
  · rw [hmain]
    show ((qs2.set 0 q2).getD 0 dfltQueue).isSlotOccupied.getD slot false = true
    rw [getD_set_self qs2 0 q2 dfltQueue (hlen2 ▸ hq0), hq2]
    exact getD_set_self _ _ _ _ hslotlt
  · rw [hmain]
    show (((s.frames.set s.currentFrame
        { s.frames.getD s.currentFrame dfltFrame with
            swapchainImageIndex := imageIndex }).set s.currentFrame
        { swapchainImageIndex := imageIndex, queueFamily := 0,
          deletionQueue := [DeferredAction.unlockPoolAct 0 slot] }).getD
        s.currentFrame dfltFrame).deletionQueue = [DeferredAction.unlockPoolAct 0 slot]
    rw [getD_set_self _ _ _ _ (by simpa using hfi)]
  · intro f submitRes presentRes
    rw [kEndFrame_queues]
  · intro qs hw h1 h2 h3 h4
    have hu : unlockCommandPoolQ (qs.getD 0 dfltQueue) slot hw
        = some { isSlotOccupied := (qs.getD 0 dfltQueue).isSlotOccupied.set slot false,
                 freePoolCount := (qs.getD 0 dfltQueue).freePoolCount + 1 } := by
      unfold unlockCommandPoolQ
      rw [if_pos ⟨h1, h2, h3⟩]
    constructor
    · unfold drainDeletionQueue
      show (match drainAux qs hw [DeferredAction.unlockPoolAct 0 slot] with
            | none => none
            | some (qs3, lg2) => some (qs3, lg2, [])) = _
      simp only [drainAux, runDeferredAction, hu]
    · rw [getD_set_self qs 0 _ dfltQueue h4]
      exact getD_set_self _ _ _ _ h1

/-- Witness for C4 at a fresh two-slot state: the first startFrame
leases slot 0 of queue family 0. -/
theorem startFrame_lease_outlives_frame_witness :
    0 < kInitState.frames.length
    ∧ 0 < kInitState.queues.length
    ∧ ([initQueue 2, initQueue 2] : List Queue).length = kInitState.queues.length
    ∧ drainDeletionQueue kInitState.queues kInitState.hwConcurrency
        ((kInitState.frames.getD kInitState.currentFrame dfltFrame).deletionQueue)
        = some ([initQueue 2, initQueue 2], [], [])
    ∧ lockCommandPoolQ (([initQueue 2, initQueue 2] : List Queue).getD 0 dfltQueue)
        = LockOutcome.acquired { isSlotOccupied := [true, false], freePoolCount := 1 } 0
    ∧ LeaseOutlivesFrame kInitState 0 [initQueue 2, initQueue 2] []
        { isSlotOccupied := [true, false], freePoolCount := 1 } 0 :=
  ⟨by decide, by decide, by decide, by decide, by decide,
   startFrame_lease_outlives_frame kInitState 0 [initQueue 2, initQueue 2] []
     { isSlotOccupied := [true, false], freePoolCount := 1 } 0
     (by decide) (by decide) (by decide) (by decide) (by decide)⟩

/-- Witness for C6 at concrete states and present results. -/
theorem present_error_signal_spec_witness :
    ((kEndFrame kInitState dfltFrame VkResult.VK_SUCCESS VkResult.VK_SUCCESS).2.1
        = ReturnCode.OK ↔ VkResult.VK_SUCCESS = VkResult.VK_SUCCESS)
    ∧ (kStartFrame kInitState VkResult.VK_SUCCESS VkResult.VK_ERROR_OUT_OF_DATE_KHR 0).2.1
        = KFrameRet.nullPtr
    ∧ (kEndFrame kInitState dfltFrame VkResult.VK_SUCCESS
        VkResult.VK_ERROR_OUT_OF_DATE_KHR).2.1
      = (kEndFrame kInitState dfltFrame VkResult.VK_SUCCESS
          VkResult.VK_ERROR_DEVICE_LOST).2.1 := by
  have h := present_error_signal_spec kInitState dfltFrame VkResult.VK_SUCCESS kInitState 0
  exact ⟨h.1, h.2.2.1,
    h.2.2.2.2.2 VkResult.VK_ERROR_OUT_OF_DATE_KHR VkResult.VK_ERROR_DEVICE_LOST
      (by decide) (by decide) (by decide) (by decide)⟩
